import Mathlib

/-!
# chatstr-relay: the wiring of a NIP-29 relay (src/main.go)

The program is 110 lines of Go that configure a khatru relay: it loads a key
pair from the environment, fills the relay information document, attaches a
badger storage backend, applies admission policies and registers two HTTP
routes.  This development embeds those functions and proves properties of them.

Conventions of the embedding.

* The relay is a Go pointer mutated in place; here every function takes the
  relay value and returns the new one.
* Go function values stored in handler chains are represented by the value
  that identifies them (a method value is its receiver and method).
* log.Fatal and panic end the process; they are an explicit `Abort` result.
* uint16 arithmetic is arithmetic on naturals modulo 65536.
* Library code (khatru, go-nostr, godotenv, net/http) is not part of the
  program; what it returns is a parameter of the function that calls it.
-/

namespace Chatstr

/-! ## The uint16 loop that builds the allow-list (main.go, lines 75-78) -/

/-- Number of values of a Go uint16. -/
def uint16Size : Nat := 65536

/-- The Go statement i++ on a uint16 counter. -/
def uint16Incr (i : Nat) : Nat := (i + 1) % uint16Size

/-- Variables of the loop at line 76, with two ghost fields: the number of
loop bodies executed and whether an increment has wrapped around. -/
structure LoopState where
  i : Nat
  nip29AllKinds : List Nat
  iterations : Nat
  wrapped : Bool
deriving DecidableEq, Repr

/-- One execution of the body (line 77) followed by the post statement i++. -/
def loopBody (s : LoopState) : LoopState :=
  { i := uint16Incr s.i
    nip29AllKinds := s.nip29AllKinds ++ [s.i]
    iterations := s.iterations + 1
    wrapped := s.wrapped || decide (uint16Size ≤ s.i + 1) }

/-- The loop of line 76: while i <= 9021, run the body and increment. -/
def kindsLoop (s : LoopState) : LoopState :=
  if _h : s.i ≤ 9021 then kindsLoop (loopBody s) else s
termination_by 9022 - s.i
decreasing_by
  simp only [loopBody, uint16Incr, uint16Size]
  omega

/-- The slice literal of line 75. -/
def nip29BaseKinds : List Nat := [9, 10, 11, 12, 39000, 39001, 39002]

/-- Loop variables on entry: the literal of line 75 and i := uint16(9000). -/
def loopInit : LoopState :=
  { i := 9000 % uint16Size, nip29AllKinds := nip29BaseKinds, iterations := 0, wrapped := false }

/-- Value of the local slice nip29AllKinds when the loop has finished. -/
def nip29AllKinds : List Nat := (kindsLoop loopInit).nip29AllKinds

/-! ## Library types the program works on -/

/-- The fields of a go-nostr Event.  ID and Sig are filled in by Sign. -/
structure Event where
  ID : String
  PubKey : String
  CreatedAt : Nat
  Kind : Nat
  Tags : List (List String)
  Content : String
  Sig : String
deriving DecidableEq, Repr

/-- The go-nostr constant nostr.KindTextNote. -/
def KindTextNote : Nat := 1

/-- The struct badger.BadgerBackend as the program builds it: only Path is set. -/
structure BadgerBackend where
  Path : String
deriving DecidableEq, Repr

/-- A function value stored in one of the storage handler chains of the relay.
A method value of a backend is identified by its receiver; any other function
value is identified by a name. -/
inductive Handler where
  | SaveEvent (db : BadgerBackend)
  | QueryEvents (db : BadgerBackend)
  | CountEvents (db : BadgerBackend)
  | DeleteEvent (db : BadgerBackend)
  | func (name : String)
deriving DecidableEq, Repr

/-- A handler of the chain relay.RejectEvent: it returns whether the event is
rejected and the message given to the client. -/
abbrev RejectFn : Type := Event → Bool × String

/-- The relay information document (nip11.RelayInformationDocument): the four
fields the program writes and four it leaves alone. -/
structure RelayInformationDocument where
  Name : String
  Description : String
  PubKey : String
  Contact : String
  SupportedNIPs : List Nat
  Software : String
  Version : String
  Icon : String
deriving DecidableEq, Repr

/-- A closure registered on the HTTP mux of the relay.  The closure of line 91
captures the two key strings; the one of line 86 captures nothing. -/
inductive RouteHandler where
  | home
  | t (relayPublicKey relayPrivateKey : String)
  | func (name : String)
deriving DecidableEq, Repr

/-- The khatru Relay: the information document, the handler chains and the
HTTP mux that the program or the policies library touch, and ServiceURL as a
field nobody touches. -/
structure Relay where
  ServiceURL : String
  Info : RelayInformationDocument
  StoreEvent : List Handler
  QueryEvents : List Handler
  CountEvents : List Handler
  DeleteEvent : List Handler
  RejectEvent : List RejectFn
  RejectFilter : List Handler
  RejectConnection : List Handler
  mux : List (String × RouteHandler)

/-- Whether some handler of relay.RejectEvent rejects the event. -/
def Relay.rejects (relay : Relay) (ev : Event) : Bool :=
  relay.RejectEvent.any (fun reject => (reject ev).1)

/-- The two ways the process stops early: log.Fatal (message, exit status 1)
and an unrecovered panic. -/
inductive Abort where
  | fatal (msg : String)
  | panic (err : String)
deriving DecidableEq, Repr

/-! ## The functions of main.go -/

/-- Lines 32-45.  loadErr is the result of godotenv.Load and getenv is
os.Getenv as it answers after the load. -/
def getRelayKeyPair (loadErr : Option String) (getenv : String → String) :
    Except Abort (String × String) :=
  match loadErr with
  | some _ => .error (.fatal "Error loading .env file")
  | none =>
    let relayPrivateKey := getenv "RELAY_PRIVATE_KEY"
    let relayPublicKey := getenv "RELAY_PUBLIC_KEY"
    if relayPrivateKey = "" ∨ relayPublicKey = "" then
      .error (.fatal "RELAY_PRIVATE_KEY and RELAY_PUBLIC_KEY must be set in .env")
    else
      .ok (relayPrivateKey, relayPublicKey)

/-- Lines 47-49.  NewRelay is what khatru.NewRelay returns. -/
def initRelay (NewRelay : Relay) : Relay := NewRelay

/-- Lines 51-56. -/
def applyRelayInfo (relay : Relay) (relayPublicKey : String) : Relay :=
  let relay := { relay with Info := { relay.Info with Name := "Chatstr Relay" } }
  let relay := { relay with Info := { relay.Info with PubKey := relayPublicKey } }
  let relay := { relay with Info := { relay.Info with SupportedNIPs := [29] } }
  { relay with Info := { relay.Info with Description := "NIP29 relay for Chatstr" } }

/-- Lines 58-68.  Init is the method db.Init; the result is the relay as the
function leaves it and the panic, if any. -/
def applyRelayDB (Init : BadgerBackend → Option String) (relay : Relay) :
    Relay × Option Abort :=
  let db : BadgerBackend := { Path := "/tmp/khatru-badgern-tmp" }
  match Init db with
  | some err => (relay, some (.panic err))
  | none =>
    let relay := { relay with StoreEvent := relay.StoreEvent ++ [Handler.SaveEvent db] }
    let relay := { relay with QueryEvents := relay.QueryEvents ++ [Handler.QueryEvents db] }
    let relay := { relay with CountEvents := relay.CountEvents ++ [Handler.CountEvents db] }
    let relay := { relay with DeleteEvent := relay.DeleteEvent ++ [Handler.DeleteEvent db] }
    (relay, none)

/-- What applyRelayPolicies leaves behind: the relay, and two locals of its
frame, the slice it built and the function value that the call at line 79
returned.  The statement at line 79 stores that value nowhere. -/
structure PoliciesFrame where
  relay : Relay
  nip29AllKinds : List Nat
  restriction : RejectFn

/-- Lines 70-80.  ApplySaneDefaults and RestrictToSpecifiedKinds are the two
functions of the khatru policies package. -/
def applyRelayPolicies (ApplySaneDefaults : Relay → Relay)
    (RestrictToSpecifiedKinds : List Nat → RejectFn) (relay : Relay) : PoliciesFrame :=
  let relay := ApplySaneDefaults relay
  let kinds := nip29AllKinds
  { relay := relay
    nip29AllKinds := kinds
    restriction := RestrictToSpecifiedKinds kinds }

/-- Lines 82-111: the two closures are registered on the mux of the relay. -/
def applyRelayRouters (relay : Relay) (relayPublicKey : String) (relayPrivateKey : String) :
    Relay :=
  let relay := { relay with mux := relay.mux ++ [("/", RouteHandler.home)] }
  { relay with mux := relay.mux ++ [("/t", RouteHandler.t relayPublicKey relayPrivateKey)] }

/-- What an HTTP handler wrote: the headers it set and the body. -/
structure Response where
  headers : List (String × String)
  body : String
deriving DecidableEq, Repr

/-- The closure of lines 86-89. -/
def serveHome : Response :=
  { headers := [("content-type", "text/html")], body := "<b>welcome</b> to my relay!<br />" }

/-- One execution of the closure of lines 91-110: the event literal it built,
the key it gave to Sign, the event it gave to relay.AddEvent and its response. -/
structure TRun where
  ev : Event
  signKey : String
  added : Event
  response : Response
deriving DecidableEq, Repr

/-- The closure of lines 91-110.  now is nostr.Now(); Sign is the method
Event.Sign, returning the event as it left it and its error; AddEvent is
relay.AddEvent, returning its error.  Both errors are dropped by the code. -/
def serveT (relayPublicKey relayPrivateKey : String) (now : Nat)
    (Sign : Event → String → Event × Option String) (AddEvent : Event → Option String) :
    TRun :=
  let ev : Event :=
    { ID := ""
      PubKey := relayPublicKey
      CreatedAt := now
      Kind := KindTextNote
      Tags := []
      Content := "Hello World!"
      Sig := "" }
  let signed := Sign ev relayPrivateKey
  let _signErr := signed.2
  let _addErr := AddEvent signed.1
  { ev := ev
    signKey := relayPrivateKey
    added := signed.1
    response := { headers := [("content-type", "text/html")], body := "ok!" } }

/-- Everything main obtains from outside the program. -/
structure World where
  loadErr : Option String
  getenv : String → String
  NewRelay : Relay
  Init : BadgerBackend → Option String
  ApplySaneDefaults : Relay → Relay
  RestrictToSpecifiedKinds : List Nat → RejectFn

/-- The calls of main, lines 19-29. -/
inductive Step where
  | getRelayKeyPair
  | initRelay
  | applyRelayInfo
  | applyRelayDB
  | applyRelayPolicies
  | applyRelayRouters
  | Println
  | ListenAndServe
deriving DecidableEq, Repr

/-- One run of main: the calls it made in order, the relay object as it stood
when main stopped, the abort if any, the list applyRelayPolicies built, what
was printed, and the address and handler given to http.ListenAndServe. -/
structure Run where
  trace : List Step
  relay : Option Relay
  abort : Option Abort
  allowList : Option (List Nat)
  stdout : List String
  listen : Option (String × Relay)

/-- Lines 18-30. -/
def main (w : World) : Run :=
  match getRelayKeyPair w.loadErr w.getenv with
  | .error a =>
    { trace := [.getRelayKeyPair], relay := none, abort := some a, allowList := none,
      stdout := [], listen := none }
  | .ok (relayPrivateKey, relayPublicKey) =>
    let relay := initRelay w.NewRelay
    let relay := applyRelayInfo relay relayPublicKey
    match applyRelayDB w.Init relay with
    | (relay, some a) =>
      { trace := [.getRelayKeyPair, .initRelay, .applyRelayInfo, .applyRelayDB],
        relay := some relay, abort := some a, allowList := none, stdout := [], listen := none }
    | (relay, none) =>
      let frame := applyRelayPolicies w.ApplySaneDefaults w.RestrictToSpecifiedKinds relay
      let relay := applyRelayRouters frame.relay relayPublicKey relayPrivateKey
      { trace := [.getRelayKeyPair, .initRelay, .applyRelayInfo, .applyRelayDB,
          .applyRelayPolicies, .applyRelayRouters, .Println, .ListenAndServe],
        relay := some relay, abort := none, allowList := some frame.nip29AllKinds,
        stdout := ["running on :3334"], listen := some (":3334", relay) }

/-- The closure a mux entry stands for, run once; only the closure of line 91
builds an event. -/
def RouteHandler.runT (h : RouteHandler) (now : Nat)
    (Sign : Event → String → Event × Option String) (AddEvent : Event → Option String) :
    Option TRun :=
  match h with
  | .t relayPublicKey relayPrivateKey =>
    some (serveT relayPublicKey relayPrivateKey now Sign AddEvent)
  | _ => none

/-- The backend value applyRelayDB builds at line 59. -/
def tmpBackend : BadgerBackend := { Path := "/tmp/khatru-badgern-tmp" }

/-! ## Concrete inputs used to evaluate the functions -/

/-- A relay on which nothing is registered yet. -/
def freshRelay : Relay :=
  { ServiceURL := ""
    Info :=
      { Name := "", Description := "", PubKey := "", Contact := "", SupportedNIPs := [1, 11],
        Software := "https://github.com/fiatjaf/khatru", Version := "n/a", Icon := "" }
    StoreEvent := []
    QueryEvents := []
    CountEvents := []
    DeleteEvent := []
    RejectEvent := []
    RejectFilter := []
    RejectConnection := []
    mux := [] }

/-- A relay that already carries one handler on every chain. -/
def busyRelay : Relay :=
  { freshRelay with
    ServiceURL := "wss://relay.example"
    StoreEvent := [Handler.func "store0"]
    QueryEvents := [Handler.func "query0"]
    CountEvents := [Handler.func "count0"]
    DeleteEvent := [Handler.func "delete0"]
    RejectEvent := [fun ev => (decide (ev.Content = ""), "empty content")]
    mux := [("/health", RouteHandler.func "health")] }

/-- An instance of ApplySaneDefaults: it appends a handler that looks only at
the content, and one named handler to each of the other two reject chains. -/
def sampleSaneDefaults (relay : Relay) : Relay :=
  { relay with
    RejectEvent := relay.RejectEvent ++ [fun ev => (decide (ev.Content = "spam"), "blocked")]
    RejectFilter := relay.RejectFilter ++ [Handler.func "NoComplexFilters"]
    RejectConnection := relay.RejectConnection ++ [Handler.func "ConnectionRateLimiter"] }

/-- An instance of RestrictToSpecifiedKinds: reject a kind outside the list. -/
def sampleRestrict (kinds : List Nat) : RejectFn :=
  fun ev => (decide (ev.Kind ∉ kinds), "event kind not allowed")

/-- An event of kind 1, the kind of a text note. -/
def textNote : Event :=
  { ID := "id1", PubKey := "author", CreatedAt := 1700000000, Kind := 1, Tags := [],
    Content := "Hello World!", Sig := "sig1" }

/-- An instance of Sign that fails on every key and leaves the event as it is. -/
def failingSign (ev : Event) (_secretKey : String) : Event × Option String :=
  (ev, some "Sign called with invalid secret key")

/-- An instance of Sign that succeeds and fills in ID and Sig. -/
def sampleSign (ev : Event) (secretKey : String) : Event × Option String :=
  ({ ev with ID := "id", Sig := "sig:" ++ secretKey }, none)

/-- An instance of AddEvent that fails on every event. -/
def failingAddEvent (_ev : Event) : Option String := some "storage unavailable"

/-- An instance of AddEvent that succeeds. -/
def sampleAddEvent (_ev : Event) : Option String := none

/-- An environment in which both keys are set. -/
def envA (name : String) : String :=
  if name = "RELAY_PRIVATE_KEY" then "aa11"
  else if name = "RELAY_PUBLIC_KEY" then "bb22"
  else if name = "ALLOWED_KINDS" then "1"
  else ""

/-- Another environment in which both keys are set, with other values. -/
def envB (name : String) : String :=
  if name = "RELAY_PRIVATE_KEY" then "cc33"
  else if name = "RELAY_PUBLIC_KEY" then "dd44"
  else if name = "ALLOWED_KINDS" then "9,10,11,12"
  else ""

/-- A world in which start-up succeeds. -/
def worldA : World :=
  { loadErr := none
    getenv := envA
    NewRelay := freshRelay
    Init := fun _ => none
    ApplySaneDefaults := sampleSaneDefaults
    RestrictToSpecifiedKinds := sampleRestrict }

/-- A world in which start-up succeeds, every input differing from worldA. -/
def worldB : World :=
  { loadErr := none
    getenv := envB
    NewRelay := busyRelay
    Init := fun _ => none
    ApplySaneDefaults := fun relay => relay
    RestrictToSpecifiedKinds := fun _ _ => (false, "") }

/-- A world in which the keys load and the storage engine cannot be opened. -/
def worldNoStorage : World :=
  { worldA with Init := fun _ => some "Cannot acquire directory lock" }

/-! ## Auxiliary lemmas on the loop -/

theorem kindsLoop_step (s : LoopState) (h : s.i ≤ 9021) :
    kindsLoop s = kindsLoop (loopBody s) := by
  rw [kindsLoop, dif_pos h]

theorem kindsLoop_exit (s : LoopState) (h : ¬ s.i ≤ 9021) : kindsLoop s = s := by
  rw [kindsLoop, dif_neg h]

/-- Closed form of the loop started anywhere in 0..9022: it appends the
remaining counter values in order and stops with i = 9022. -/
theorem kindsLoop_closed (n : Nat) :
    ∀ s : LoopState, s.i + n = 9022 →
      kindsLoop s =
        { i := 9022
          nip29AllKinds := s.nip29AllKinds ++ List.range' s.i n
          iterations := s.iterations + n
          wrapped := s.wrapped } := by
  induction n with
  | zero =>
    intro s hs
    rw [kindsLoop_exit s (by omega)]
    cases s
    simp at hs ⊢
    exact hs
  | succ n ih =>
    intro s hs
    have hi : uint16Incr s.i = s.i + 1 := by
      simp only [uint16Incr, uint16Size]
      omega
    have hw : decide (uint16Size ≤ s.i + 1) = false := by
      simp only [uint16Size, decide_eq_false_iff_not]
      omega
    rw [kindsLoop_step s (by omega), ih (loopBody s)]
    · simp only [loopBody, hi, hw, Bool.or_false, List.range'_succ, List.append_assoc,
        List.singleton_append]
      congr 1
      omega
    · simp only [loopBody, hi]
      omega

theorem kindsLoop_loopInit :
    kindsLoop loopInit =
      { i := 9022
        nip29AllKinds := nip29BaseKinds ++ List.range' 9000 22
        iterations := 22
        wrapped := false } := by
  have h := kindsLoop_closed 22 loopInit (by decide)
  simpa [loopInit, uint16Size] using h

theorem nip29AllKinds_eq :
    nip29AllKinds =
      [9, 10, 11, 12, 39000, 39001, 39002,
       9000, 9001, 9002, 9003, 9004, 9005, 9006, 9007, 9008, 9009, 9010,
       9011, 9012, 9013, 9014, 9015, 9016, 9017, 9018, 9019, 9020, 9021] := by
  rw [nip29AllKinds, kindsLoop_loopInit]
  decide

theorem mem_nip29AllKinds (k : Nat) :
    k ∈ nip29AllKinds ↔
      (9 ≤ k ∧ k ≤ 12) ∨ (9000 ≤ k ∧ k ≤ 9021) ∨ (39000 ≤ k ∧ k ≤ 39002) := by
  rw [nip29AllKinds_eq]
  constructor
  · intro h
    simp only [List.mem_cons, List.mem_singleton, List.not_mem_nil, or_false] at h
    omega
  · rintro (⟨h1, h2⟩ | ⟨h1, h2⟩ | ⟨h1, h2⟩) <;> interval_cases k <;> decide

/-! ## The allow-list -/

/-- C2: the slice nip29AllKinds that applyRelayPolicies builds is, for every
relay and whatever the policies library does, the sequence 9, 10, 11, 12,
39000, 39001, 39002, 9000, ..., 9021; it has 29 entries without duplicates; a
kind is in it exactly when it lies in 9..12, in 9000..9021 or in
39000..39002; and the loop is total, runs its body 22 times, never wraps its
uint16 counter and stops with the counter at 9022. -/
theorem nip29AllKinds_spec :
    (∀ (sane : Relay → Relay) (restrict : List Nat → RejectFn) (relay : Relay),
      (applyRelayPolicies sane restrict relay).nip29AllKinds =
        [9, 10, 11, 12, 39000, 39001, 39002,
         9000, 9001, 9002, 9003, 9004, 9005, 9006, 9007, 9008, 9009, 9010,
         9011, 9012, 9013, 9014, 9015, 9016, 9017, 9018, 9019, 9020, 9021]) ∧
    nip29AllKinds.length = 29 ∧
    nip29AllKinds.Nodup ∧
    (∀ k : Nat, k ∈ nip29AllKinds ↔
      (9 ≤ k ∧ k ≤ 12) ∨ (9000 ≤ k ∧ k ≤ 9021) ∨ (39000 ≤ k ∧ k ≤ 39002)) ∧
    (kindsLoop loopInit).iterations = 22 ∧
    (kindsLoop loopInit).wrapped = false ∧
    (kindsLoop loopInit).i = 9022 := by
  refine ⟨?_, ?_, ?_, mem_nip29AllKinds, ?_, ?_, ?_⟩
  · intro sane restrict relay
    exact nip29AllKinds_eq
  · rw [nip29AllKinds_eq]; rfl
  · rw [nip29AllKinds_eq]; decide
  · rw [kindsLoop_loopInit]
  · rw [kindsLoop_loopInit]
  · rw [kindsLoop_loopInit]

/-! ## The information document -/

/-- C5: after applyRelayInfo relay pk the information document has PubKey pk,
SupportedNIPs [29], Name "Chatstr Relay" and Description "NIP29 relay for
Chatstr"; the other fields of the document and every other field of the relay
are what they were. -/
theorem applyRelayInfo_spec (relay : Relay) (pk : String) :
    (applyRelayInfo relay pk).Info.PubKey = pk ∧
    (applyRelayInfo relay pk).Info.SupportedNIPs = [29] ∧
    (applyRelayInfo relay pk).Info.Name = "Chatstr Relay" ∧
    (applyRelayInfo relay pk).Info.Description = "NIP29 relay for Chatstr" ∧
    (applyRelayInfo relay pk).Info.Contact = relay.Info.Contact ∧
    (applyRelayInfo relay pk).Info.Software = relay.Info.Software ∧
    (applyRelayInfo relay pk).Info.Version = relay.Info.Version ∧
    (applyRelayInfo relay pk).Info.Icon = relay.Info.Icon ∧
    (applyRelayInfo relay pk).ServiceURL = relay.ServiceURL ∧
    (applyRelayInfo relay pk).StoreEvent = relay.StoreEvent ∧
    (applyRelayInfo relay pk).QueryEvents = relay.QueryEvents ∧
    (applyRelayInfo relay pk).CountEvents = relay.CountEvents ∧
    (applyRelayInfo relay pk).DeleteEvent = relay.DeleteEvent ∧
    (applyRelayInfo relay pk).RejectEvent = relay.RejectEvent ∧
    (applyRelayInfo relay pk).RejectFilter = relay.RejectFilter ∧
    (applyRelayInfo relay pk).RejectConnection = relay.RejectConnection ∧
    (applyRelayInfo relay pk).mux = relay.mux := by
  simp [applyRelayInfo]

/-! ## The storage backend -/

/-- C8: when Init succeeds, applyRelayDB does not panic and leaves each of
StoreEvent, QueryEvents, CountEvents and DeleteEvent equal to its old value
followed by one handler, the SaveEvent, QueryEvents, CountEvents and
DeleteEvent method of the backend at /tmp/khatru-badgern-tmp; each length
grows by one and no other field of the relay changes. -/
theorem applyRelayDB_append_only (Init : BadgerBackend → Option String) (relay : Relay)
    (hInit : Init tmpBackend = none) :
    (applyRelayDB Init relay).2 = none ∧
    (applyRelayDB Init relay).1.StoreEvent = relay.StoreEvent ++ [Handler.SaveEvent tmpBackend] ∧
    (applyRelayDB Init relay).1.QueryEvents =
      relay.QueryEvents ++ [Handler.QueryEvents tmpBackend] ∧
    (applyRelayDB Init relay).1.CountEvents =
      relay.CountEvents ++ [Handler.CountEvents tmpBackend] ∧
    (applyRelayDB Init relay).1.DeleteEvent =
      relay.DeleteEvent ++ [Handler.DeleteEvent tmpBackend] ∧
    (applyRelayDB Init relay).1.StoreEvent.length = relay.StoreEvent.length + 1 ∧
    (applyRelayDB Init relay).1.QueryEvents.length = relay.QueryEvents.length + 1 ∧
    (applyRelayDB Init relay).1.CountEvents.length = relay.CountEvents.length + 1 ∧
    (applyRelayDB Init relay).1.DeleteEvent.length = relay.DeleteEvent.length + 1 ∧
    (applyRelayDB Init relay).1.ServiceURL = relay.ServiceURL ∧
    (applyRelayDB Init relay).1.Info = relay.Info ∧
    (applyRelayDB Init relay).1.RejectEvent = relay.RejectEvent ∧
    (applyRelayDB Init relay).1.RejectFilter = relay.RejectFilter ∧
    (applyRelayDB Init relay).1.RejectConnection = relay.RejectConnection ∧
    (applyRelayDB Init relay).1.mux = relay.mux := by
  have h : Init { Path := "/tmp/khatru-badgern-tmp" } = none := hInit
  simp [applyRelayDB, h, tmpBackend]

theorem applyRelayDB_append_only_witness :
    (applyRelayDB (fun _ => none) busyRelay).1.StoreEvent =
      [Handler.func "store0", Handler.SaveEvent tmpBackend] ∧
    (applyRelayDB (fun _ => none) busyRelay).1.StoreEvent.length = 2 :=
  ⟨(applyRelayDB_append_only (fun _ => none) busyRelay rfl).2.1,
   (applyRelayDB_append_only (fun _ => none) busyRelay rfl).2.2.2.2.2.1⟩

/-- C3: when Init returns an error, applyRelayDB panics with that error and
leaves the relay, hence all four storage chains, exactly as it found it; and
main then stops with a panic or a fatal exit, without calling
applyRelayPolicies, applyRelayRouters, Println or http.ListenAndServe. -/
theorem storage_init_failure_is_fatal (w : World) (err : String)
    (hInit : w.Init tmpBackend = some err) :
    (∀ relay : Relay, applyRelayDB w.Init relay = (relay, some (Abort.panic err))) ∧
    (main w).abort ≠ none ∧
    (∀ priv pub : String, getRelayKeyPair w.loadErr w.getenv = .ok (priv, pub) →
      (main w).abort = some (Abort.panic err) ∧
      (main w).relay = some (applyRelayInfo (initRelay w.NewRelay) pub)) ∧
    Step.applyRelayPolicies ∉ (main w).trace ∧
    Step.applyRelayRouters ∉ (main w).trace ∧
    Step.Println ∉ (main w).trace ∧
    Step.ListenAndServe ∉ (main w).trace ∧
    (main w).allowList = none ∧
    (main w).stdout = [] ∧
    (main w).listen = none := by
  have h : w.Init { Path := "/tmp/khatru-badgern-tmp" } = some err := hInit
  have hdb : ∀ relay : Relay, applyRelayDB w.Init relay = (relay, some (Abort.panic err)) := by
    intro relay
    simp [applyRelayDB, h]
  refine ⟨hdb, ?_⟩
  cases hk : getRelayKeyPair w.loadErr w.getenv with
  | error a => simp [main, hk]
  | ok p =>
    obtain ⟨priv, pub⟩ := p
    simp [main, hk, hdb]

theorem storage_init_failure_is_fatal_witness :
    (main worldNoStorage).abort = some (Abort.panic "Cannot acquire directory lock") ∧
    (main worldNoStorage).listen = none :=
  ⟨((storage_init_failure_is_fatal worldNoStorage "Cannot acquire directory lock" rfl).2.2.1
      "aa11" "bb22" rfl).1,
   (storage_init_failure_is_fatal worldNoStorage "Cannot acquire directory lock"
      rfl).2.2.2.2.2.2.2.2.2⟩

/-! ## Key loading -/

theorem getRelayKeyPair_ok (loadErr : Option String) (getenv : String → String)
    (p : String × String) (h : getRelayKeyPair loadErr getenv = .ok p) :
    p = (getenv "RELAY_PRIVATE_KEY", getenv "RELAY_PUBLIC_KEY") := by
  cases loadErr with
  | some e => simp [getRelayKeyPair] at h
  | none =>
    simp only [getRelayKeyPair] at h
    split at h
    · cases h
    · cases h
      rfl

/-- C6: getRelayKeyPair returns a pair exactly when the .env file loaded and
both RELAY_PRIVATE_KEY and RELAY_PUBLIC_KEY are non-empty; the pair is then
(RELAY_PRIVATE_KEY, RELAY_PUBLIC_KEY) in this order, both non-empty; in every
other case the result is a fatal exit. -/
theorem getRelayKeyPair_spec (loadErr : Option String) (getenv : String → String) :
    ((∃ p, getRelayKeyPair loadErr getenv = .ok p) ↔
      (loadErr = none ∧ getenv "RELAY_PRIVATE_KEY" ≠ "" ∧ getenv "RELAY_PUBLIC_KEY" ≠ "")) ∧
    (∀ p, getRelayKeyPair loadErr getenv = .ok p →
      p = (getenv "RELAY_PRIVATE_KEY", getenv "RELAY_PUBLIC_KEY") ∧ p.1 ≠ "" ∧ p.2 ≠ "") ∧
    (¬ (loadErr = none ∧ getenv "RELAY_PRIVATE_KEY" ≠ "" ∧ getenv "RELAY_PUBLIC_KEY" ≠ "") →
      ∃ msg, getRelayKeyPair loadErr getenv = .error (Abort.fatal msg)) := by
  cases loadErr with
  | some e => simp [getRelayKeyPair]
  | none =>
    by_cases h1 : getenv "RELAY_PRIVATE_KEY" = ""
    · simp [getRelayKeyPair, h1]
    · by_cases h2 : getenv "RELAY_PUBLIC_KEY" = ""
      · simp [getRelayKeyPair, h1, h2]
      · refine ⟨?_, ?_, ?_⟩
        · simp [getRelayKeyPair, h1, h2]
        · intro p hp
          simp [getRelayKeyPair, h1, h2] at hp
          subst hp
          exact ⟨rfl, h1, h2⟩
        · intro hn
          exact absurd ⟨rfl, h1, h2⟩ hn

theorem getRelayKeyPair_spec_witness :
    (∃ p, getRelayKeyPair none envA = .ok p) ∧
    (∃ msg, getRelayKeyPair (some "open .env: no such file") envA = .error (Abort.fatal msg)) :=
  ⟨(getRelayKeyPair_spec none envA).1.2 ⟨rfl, by decide, by decide⟩,
   (getRelayKeyPair_spec (some "open .env: no such file") envA).2.2 (by simp)⟩

/-! ## The admission policies -/

theorem applyRelayPolicies_relay (sane : Relay → Relay) (restrict : List Nat → RejectFn)
    (relay : Relay) : (applyRelayPolicies sane restrict relay).relay = sane relay := rfl

theorem textNote_kind_not_allowed : textNote.Kind ∉ nip29AllKinds := by
  rw [mem_nip29AllKinds]
  simp [textNote]

/-- C1: the function value returned by RestrictToSpecifiedKinds at line 79 is
not appended to relay.RejectEvent.  For every relay the chain after
applyRelayPolicies is the chain ApplySaneDefaults left.  On a relay with an
empty chain, with sane defaults that look only at the content, an event of
kind 1 (not on the allow-list, and rejected by the unused function value) is
rejected by no installed handler, also on the relay main hands to
http.ListenAndServe. -/
theorem kind_restriction_not_installed :
    (∀ (sane : Relay → Relay) (restrict : List Nat → RejectFn) (relay : Relay),
      (applyRelayPolicies sane restrict relay).relay.RejectEvent = (sane relay).RejectEvent) ∧
    textNote.Kind ∉ nip29AllKinds ∧
    ((applyRelayPolicies sampleSaneDefaults sampleRestrict freshRelay).restriction textNote).1
      = true ∧
    (applyRelayPolicies sampleSaneDefaults sampleRestrict freshRelay).relay.RejectEvent.length
      = 1 ∧
    (applyRelayPolicies sampleSaneDefaults sampleRestrict freshRelay).relay.rejects textNote
      = false ∧
    (∃ relay, (main worldA).listen = some (":3334", relay) ∧ relay.rejects textNote = false) := by
  refine ⟨fun _ _ _ => rfl, textNote_kind_not_allowed, ?_, rfl, ?_, ?_⟩
  · have h := textNote_kind_not_allowed
    simp [applyRelayPolicies, sampleRestrict, h]
  · simp [applyRelayPolicies, sampleSaneDefaults, freshRelay, Relay.rejects, textNote]
  · refine ⟨_, rfl, ?_⟩
    simp [applyRelayRouters, applyRelayPolicies, applyRelayDB, applyRelayInfo, initRelay,
      worldA, sampleSaneDefaults, freshRelay, Relay.rejects, textNote]

/-- C7, the claim fails: two runs whose environments, keys, relays and
libraries all differ, one naming kind 1 in a variable ALLOWED_KINDS, build the
same list, and kind 1 is not in it. -/
theorem allowList_ignores_environment :
    worldA.getenv "ALLOWED_KINDS" = "1" ∧
    worldB.getenv "ALLOWED_KINDS" = "9,10,11,12" ∧
    (main worldA).allowList = some nip29AllKinds ∧
    (main worldB).allowList = some nip29AllKinds ∧
    1 ∉ nip29AllKinds := by
  refine ⟨by decide, by decide, rfl, rfl, ?_⟩
  rw [mem_nip29AllKinds]
  decide

/-- C7 as amended: the allow-list is a constant of applyRelayPolicies.  The
function takes the relay and nothing else of the program, and the list it
builds is the same for all relays and all library behaviours; every run of
main that calls applyRelayPolicies builds that fixed list, so any two such
runs build equal lists. -/
theorem allowList_is_constant (w w2 : World)
    (h : Step.applyRelayPolicies ∈ (main w).trace)
    (h2 : Step.applyRelayPolicies ∈ (main w2).trace) :
    (∀ (sane : Relay → Relay) (restrict : List Nat → RejectFn) (relay : Relay),
      (applyRelayPolicies sane restrict relay).nip29AllKinds = nip29AllKinds) ∧
    (main w).allowList =
      some [9, 10, 11, 12, 39000, 39001, 39002,
        9000, 9001, 9002, 9003, 9004, 9005, 9006, 9007, 9008, 9009, 9010,
        9011, 9012, 9013, 9014, 9015, 9016, 9017, 9018, 9019, 9020, 9021] ∧
    (main w).allowList = (main w2).allowList := by
  have key : ∀ v : World, Step.applyRelayPolicies ∈ (main v).trace →
      (main v).allowList = some nip29AllKinds := by
    intro v hv
    unfold main at hv ⊢
    cases hk : getRelayKeyPair v.loadErr v.getenv with
    | error a => simp [hk] at hv
    | ok p =>
      obtain ⟨priv, pub⟩ := p
      cases hdb : applyRelayDB v.Init (applyRelayInfo (initRelay v.NewRelay) pub) with
      | mk relay ab =>
        cases ab with
        | some a => simp [hk, hdb] at hv
        | none => simp [hk, hdb, applyRelayPolicies]
  refine ⟨fun _ _ _ => rfl, ?_, ?_⟩
  · rw [key w h, nip29AllKinds_eq]
  · rw [key w h, key w2 h2]

theorem allowList_is_constant_witness :
    (main worldA).allowList = (main worldB).allowList :=
  (allowList_is_constant worldA worldB (by decide) (by decide)).2.2

/-! ## The route /t -/

/-- C4, the claim fails: with a Sign that returns an error and an AddEvent
that returns an error, the handler answers ok!. -/
theorem t_route_ok_despite_errors :
    (failingSign (serveT "bb22" "zz" 0 failingSign failingAddEvent).ev "zz").2 ≠ none ∧
    failingAddEvent (serveT "bb22" "zz" 0 failingSign failingAddEvent).added ≠ none ∧
    (serveT "bb22" "zz" 0 failingSign failingAddEvent).response.body = "ok!" := by
  refine ⟨by simp [failingSign], by simp [failingAddEvent], rfl⟩

/-- C4 as amended: the handler of /t does not look at what Sign and AddEvent
return.  It gives Sign the event it built, gives relay.AddEvent the event as
Sign left it, and for every outcome of the two calls its response is the
header content-type text/html and the body ok!. -/
theorem t_route_always_ok (relayPublicKey relayPrivateKey : String) (now : Nat)
    (Sign : Event → String → Event × Option String) (AddEvent : Event → Option String) :
    (serveT relayPublicKey relayPrivateKey now Sign AddEvent).response =
      { headers := [("content-type", "text/html")], body := "ok!" } ∧
    (serveT relayPublicKey relayPrivateKey now Sign AddEvent).added =
      (Sign (serveT relayPublicKey relayPrivateKey now Sign AddEvent).ev relayPrivateKey).1 :=
  ⟨rfl, rfl⟩

/-- C9: when getRelayKeyPair returns (priv, pub), priv is RELAY_PRIVATE_KEY and
pub is RELAY_PUBLIC_KEY; the information document of the relay main works on
has PubKey pub (the policies library leaving the document alone); when storage
opens, the relay given to http.ListenAndServe has on /t the closure that
captured pub as public and priv as private key; and each run of that closure
builds the event with PubKey pub, Kind 1, no tags, Content Hello World!, and
calls Sign with priv. -/
theorem keys_flow_unswapped (w : World) (priv pub : String)
    (hk : getRelayKeyPair w.loadErr w.getenv = .ok (priv, pub))
    (hSane : ∀ r : Relay, (w.ApplySaneDefaults r).Info = r.Info) :
    priv = w.getenv "RELAY_PRIVATE_KEY" ∧
    pub = w.getenv "RELAY_PUBLIC_KEY" ∧
    (∀ relay, (main w).relay = some relay → relay.Info.PubKey = pub) ∧
    (w.Init tmpBackend = none →
      ∃ relay, (main w).listen = some (":3334", relay) ∧ relay.Info.PubKey = pub ∧
        ("/t", RouteHandler.t pub priv) ∈ relay.mux) ∧
    (∀ (now : Nat) (Sign : Event → String → Event × Option String)
        (AddEvent : Event → Option String),
      (RouteHandler.t pub priv).runT now Sign AddEvent =
        some (serveT pub priv now Sign AddEvent) ∧
      (serveT pub priv now Sign AddEvent).ev =
        { ID := "", PubKey := pub, CreatedAt := now, Kind := 1, Tags := [],
          Content := "Hello World!", Sig := "" } ∧
      (serveT pub priv now Sign AddEvent).signKey = priv ∧
      (serveT pub priv now Sign AddEvent).added =
        (Sign (serveT pub priv now Sign AddEvent).ev priv).1) := by
  have hp := getRelayKeyPair_ok w.loadErr w.getenv (priv, pub) hk
  have hpriv : priv = w.getenv "RELAY_PRIVATE_KEY" := congrArg Prod.fst hp
  have hpub : pub = w.getenv "RELAY_PUBLIC_KEY" := congrArg Prod.snd hp
  refine ⟨hpriv, hpub, ?_, ?_, fun now Sign AddEvent => ⟨rfl, rfl, rfl, rfl⟩⟩
  · intro relay hr
    cases hi : w.Init { Path := "/tmp/khatru-badgern-tmp" } with
    | some err =>
      simp only [main, hk, applyRelayDB, hi, Option.some.injEq] at hr
      subst hr
      simp [applyRelayInfo]
    | none =>
      simp only [main, hk, applyRelayDB, hi, Option.some.injEq] at hr
      subst hr
      simp [applyRelayRouters, applyRelayPolicies, hSane, applyRelayInfo]
  · intro hi
    have hi2 : w.Init { Path := "/tmp/khatru-badgern-tmp" } = none := hi
    refine ⟨applyRelayRouters
      (applyRelayPolicies w.ApplySaneDefaults w.RestrictToSpecifiedKinds
        (applyRelayDB w.Init (applyRelayInfo (initRelay w.NewRelay) pub)).1).relay pub priv,
      ?_, ?_, ?_⟩
    · simp only [main, hk, applyRelayDB, hi2]
    · simp [applyRelayRouters, applyRelayPolicies, hSane, applyRelayDB, hi2, applyRelayInfo]
    · simp [applyRelayRouters]

theorem keys_flow_unswapped_witness :
    (∃ relay, (main worldA).listen = some (":3334", relay) ∧ relay.Info.PubKey = "bb22" ∧
      ("/t", RouteHandler.t "bb22" "aa11") ∈ relay.mux) ∧
    (serveT "bb22" "aa11" 1700000000 sampleSign sampleAddEvent).signKey = "aa11" :=
  ⟨(keys_flow_unswapped worldA "aa11" "bb22" rfl (fun _ => rfl)).2.2.2.1 rfl,
   ((keys_flow_unswapped worldA "aa11" "bb22" rfl (fun _ => rfl)).2.2.2.2
      1700000000 sampleSign sampleAddEvent).2.2.1⟩

/-- C10: for every key pair, every time and every behaviour of Sign and
AddEvent, the kind of the event the /t handler builds is nostr.KindTextNote,
that is 1, and it is not on the list nip29AllKinds that applyRelayPolicies
builds. -/
theorem t_route_kind_not_allowed (relayPublicKey relayPrivateKey : String) (now : Nat)
    (Sign : Event → String → Event × Option String) (AddEvent : Event → Option String)
    (sane : Relay → Relay) (restrict : List Nat → RejectFn) (relay : Relay) :
    (serveT relayPublicKey relayPrivateKey now Sign AddEvent).ev.Kind = 1 ∧
    (serveT relayPublicKey relayPrivateKey now Sign AddEvent).ev.Kind ∉
      (applyRelayPolicies sane restrict relay).nip29AllKinds := by
  refine ⟨rfl, ?_⟩
  show KindTextNote ∉ nip29AllKinds
  rw [mem_nip29AllKinds]
  decide

end Chatstr
